import Mathlib

/-!
Shallow embedding of `src/main.py` (the nl-to-gas FastAPI service).

The service exposes `POST /ingest`, which
  1. compares the `x-api-key` header against the `SERVER_API_KEY` environment value,
  2. rejects empty `user_text`,
  3. calls `nl_to_gas_payload` (the LLM extraction step), wrapping any exception
     into a 500 with detail `"nl_to_gas_payload error: ..."`,
  4. runs `validate_task_fields` and returns the needs-user dict unchanged when
     a required field is missing or question-like,
  5. posts the payload to `GAS_WEBAPP_URL`, turning a `requests.RequestException`
     into a 502 and echoing any HTTP response as `{ok, status, text[:1000]}`.

The LLM call itself and the sink are opaque: the parsed model output and the
sink's behaviour are passed in as oracle parameters, so `ingest` here is the
deterministic rest of the handler.  The handler keeps no state between requests
(there is no pending-command store in the source), so the embedding is a pure
function of one request.
-/

deriving instance DecidableEq for Except

namespace NlToGas

/-- Parsed JSON object returned by the model, with every key optional
(`data.get` in the source tolerates absence); `body` is a string-to-string
dict as pinned by the JSON schema. -/
structure LlmData where
  intent : Option String
  sheet : Option String
  body : Option (List (String × String))
deriving DecidableEq, Repr

/-- The pydantic `GasPayload` model: `{token, intent, sheet, body}`. -/
structure GasPayload where
  token : String
  intent : String
  sheet : String
  body : List (String × String)
deriving DecidableEq, Repr

/-- Environment configuration read at module load, plus the server clock
(`datetime.now().strftime("%Y/%m/%d")` inside `nl_to_gas_payload`).
`openaiSet` is whether `OPENAI_API_KEY` is set and non-empty. -/
structure Config where
  openaiSet : Bool
  gasUrl : Option String
  sharedToken : Option String
  serverApiKey : Option String
  today : String
deriving DecidableEq, Repr

/-- One inbound `/ingest` request: the `user_text` JSON field and the
`x-api-key` header, each possibly absent. -/
structure Request where
  userText : Option String
  apiKey : Option String
deriving DecidableEq, Repr

/-- What the sink (GAS web app) does when `requests.post` is invoked:
either the request raises `requests.RequestException` (network failure /
timeout), or an HTTP response with some status and body text comes back. -/
inductive SinkBehavior where
  | unreachable (msg : String)
  | responded (status : Nat) (text : String)
deriving DecidableEq, Repr

/-- A raised `fastapi.HTTPException`: status code and detail string. -/
structure HttpError where
  status : Nat
  detail : String
deriving DecidableEq, Repr

/-- Result of `validate_task_fields`: either `{"ok": True}` or
`{"ok": False, "needs_user": True, "message": ...}`. -/
inductive Validation where
  | ok
  | needsUser (message : String)
deriving DecidableEq, Repr

/-- What the HTTP caller of `/ingest` observes: a raised `HTTPException`,
the needs-user clarification dict (returned with HTTP 200), or the dispatch
echo `{"ok": r.ok, "status": r.status_code, "text": r.text[:1000]}`. -/
inductive IngestResult where
  | httpError (status : Nat) (detail : String)
  | needsUser (message : String)
  | dispatched (ok : Bool) (status : Nat) (text : String)
deriving DecidableEq, Repr

/-- The observable effect of one `/ingest` call: the HTTP-level result and
the payload handed to `requests.post`, if control reached the sink call. -/
structure IngestTrace where
  result : IngestResult
  sent : Option GasPayload
deriving DecidableEq, Repr

/-- Python `str.strip()` whitespace set (ASCII part): space, tab, newline,
carriage return, vertical tab, form feed. -/
def isPyWs (c : Char) : Bool :=
  c == ' ' || c == '\t' || c == '\n' || c == '\r' || c == '\x0b' || c == '\x0c'

/-- Drop leading whitespace characters. -/
def dropWsLeft : List Char → List Char
  | [] => []
  | c :: rest => if isPyWs c then dropWsLeft rest else c :: rest

/-- Python `str.strip()`: remove leading and trailing whitespace. -/
def pyStrip (s : String) : String :=
  ⟨(dropWsLeft ((dropWsLeft s.data).reverse)).reverse⟩

/-- Whether the first list is a prefix of the second. -/
def prefixMatch : List Char → List Char → Bool
  | [], _ => true
  | _ :: _, [] => false
  | a :: as, b :: bs => a == b && prefixMatch as bs

/-- Whether `pat` occurs as a contiguous run inside the second list. -/
def charsContain (pat : List Char) : List Char → Bool
  | [] => prefixMatch pat []
  | c :: rest => prefixMatch pat (c :: rest) || charsContain pat rest

/-- Python slice `s[:n]` (character-based). -/
def strTake (s : String) (n : Nat) : String :=
  ⟨s.data.take n⟩

/-- Python `dict.get(k, "")` on a string-valued dict. -/
def dictGet : List (String × String) → String → String
  | [], _ => ""
  | kv :: rest, k => if kv.1 == k then kv.2 else dictGet rest k

/-- Python `d[k] = v` on an insertion-ordered dict with unique keys:
replace the value in place if the key exists, else append the pair. -/
def dictSet : List (String × String) → String → String → List (String × String)
  | [], k, v => [(k, v)]
  | kv :: rest, k, v => if kv.1 == k then (k, v) :: rest else kv :: dictSet rest k v

/-- Python substring test `pat in s`. -/
def strContains (s pat : String) : Bool :=
  charsContain pat.data s.data

/-- The `nl_to_gas_payload` function, with the opaque model call factored
out: `llm` is the parsed JSON of the model's message content (`none` when
`json.loads` fails).  `get_openai_client()` runs first and raises 500 when
`OPENAI_API_KEY` is unset; a parse failure raises 502; otherwise the date
field `追加日` of `body` (when the `body` key is present) is overwritten
with the server date, and the payload is built with hard-coded token
`"recora-secret-0324"` and defaults `intent="write"`, `sheet="task-list"`,
`body={}`. -/
def nl_to_gas_payload (openaiSet : Bool) (today : String) (llm : Option LlmData) :
    Except HttpError GasPayload :=
  if !openaiSet then
    .error ⟨500, "OPENAI_API_KEY is not set"⟩
  else
    match llm with
    | none => .error ⟨502, "LLM output JSON parse error"⟩
    | some data =>
      let body :=
        match data.body with
        | some b => dictSet b "追加日" today
        | none => []
      .ok ⟨"recora-secret-0324", data.intent.getD "write", data.sheet.getD "task-list", body⟩

/-- The `validate_task_fields` function: strip `body["担当"]` and
`body["期限"]`; the assignee fails when empty or containing one of
`["誰", "担当ですか", "？", "?"]`, then the due date fails when empty or
containing one of `["期限", "？", "?"]`. -/
def validate_task_fields (p : GasPayload) : Validation :=
  let tantou := pyStrip (dictGet p.body "担当")
  let kigen := pyStrip (dictGet p.body "期限")
  if tantou == "" || strContains tantou "誰" || strContains tantou "担当ですか" ||
      strContains tantou "？" || strContains tantou "?" then
    .needsUser "誰のタスクを追加しますか？（例：山田、佐藤）"
  else if kigen == "" || strContains kigen "期限" || strContains kigen "？" ||
      strContains kigen "?" then
    .needsUser "期限はいつにしますか？（例：12/05など）"
  else
    .ok

/-- The satisfaction rule `validate_task_fields` applies to the assignee
field `担当`: non-empty after stripping and free of that field's markers. -/
def tantouSatisfied (s : String) : Bool :=
  let t := pyStrip s
  !(t == "" || strContains t "誰" || strContains t "担当ですか" ||
    strContains t "？" || strContains t "?")

/-- The satisfaction rule `validate_task_fields` applies to the due-date
field `期限`: non-empty after stripping and free of that field's markers. -/
def kigenSatisfied (s : String) : Bool :=
  let t := pyStrip s
  !(t == "" || strContains t "期限" || strContains t "？" || strContains t "?")

/-- The `/ingest` handler.  `llm` is the parsed model output the extraction
step would obtain for this request's text, `sink` is how the GAS web app
would behave if called.  Mirrors the source line by line: 401 on key
mismatch (`(SERVER_API_KEY or "") != (x_api_key or "")`), 400 on empty
stripped `user_text`, the blanket `except Exception` around
`nl_to_gas_payload` re-raised as 500 with the stringified exception
(`"{status}: {detail}"` for an `HTTPException`), the early return of the
needs-user dict, the 500 when `GAS_WEBAPP_URL` is unset, the 502 on
`requests.RequestException`, and the `{ok, status, text[:1000]}` echo. -/
def ingest (cfg : Config) (req : Request) (llm : Option LlmData) (sink : SinkBehavior) :
    IngestTrace :=
  if cfg.serverApiKey.getD "" ≠ req.apiKey.getD "" then
    ⟨.httpError 401 "Unauthorized", none⟩
  else if pyStrip (req.userText.getD "") = "" then
    ⟨.httpError 400 "user_text required", none⟩
  else
    match nl_to_gas_payload cfg.openaiSet cfg.today llm with
    | .error e =>
      ⟨.httpError 500 ("nl_to_gas_payload error: " ++ toString e.status ++ ": " ++ e.detail),
        none⟩
    | .ok gas_payload =>
      match validate_task_fields gas_payload with
      | .needsUser msg => ⟨.needsUser msg, none⟩
      | .ok =>
        match cfg.gasUrl with
        | none => ⟨.httpError 500 "GAS_WEBAPP_URL is not set", none⟩
        | some _ =>
          match sink with
          | .unreachable m => ⟨.httpError 502 ("GAS request failed: " ++ m), some gas_payload⟩
          | .responded status text =>
            ⟨.dispatched (decide (status < 400)) status (strTake text 1000), some gas_payload⟩

/-! Concrete inputs used by witnesses and counterexamples. -/

/-- A fully populated environment: every variable set, clock at 2025/10/12. -/
def cfgAll : Config :=
  ⟨true, some "https://script.google.com/macros/s/x/exec", some "prod-shared-token",
    some "k1", "2025/10/12"⟩

/-- A complete model output: assignee and due date both present. -/
def goodBody : List (String × String) :=
  [("固有ID", ""), ("追加日", "2000/01/01"), ("担当", "山田"), ("内容", "資料作成"),
    ("期限", "12/05")]

/-- The parsed model output wrapping `goodBody`. -/
def goodLlm : LlmData := ⟨some "write", some "task-list", some goodBody⟩

/-- A request with matching api key and a complete instruction text. -/
def reqOk : Request := ⟨some "山田さんに12/05までに資料作成を頼んで", some "k1"⟩

/-- The payload `nl_to_gas_payload` builds from `goodLlm` under `cfgAll`:
the audit date is overwritten with the server date. -/
def sentPayload : GasPayload :=
  ⟨"recora-secret-0324", "write", "task-list",
    [("固有ID", ""), ("追加日", "2025/10/12"), ("担当", "山田"), ("内容", "資料作成"),
      ("期限", "12/05")]⟩

example : nl_to_gas_payload true "2025/10/12" (some goodLlm) = .ok sentPayload := by decide
example : validate_task_fields sentPayload = .ok := by decide
example : ingest cfgAll reqOk (some goodLlm) (.responded 200 "ok") =
    ⟨.dispatched true 200 "ok", some sentPayload⟩ := by decide

/-! Helper lemmas shared by the claim theorems. -/

/-- Looking up the key just assigned returns the assigned value. -/
theorem dictGet_dictSet (d : List (String × String)) (k v : String) :
    dictGet (dictSet d k v) k = v := by
  induction d with
  | nil => simp [dictGet, dictSet]
  | cons kv rest ih =>
    by_cases h : kv.1 == k
    · simp [dictSet, h, dictGet]
    · simp only [dictSet, h, if_false, Bool.false_eq_true, dictGet, ih]

/-- `validate_task_fields` succeeds exactly when each required field passes
its own per-field satisfaction rule. -/
theorem validate_ok_iff (p : GasPayload) :
    validate_task_fields p = Validation.ok ↔
      tantouSatisfied (dictGet p.body "担当") = true ∧
      kigenSatisfied (dictGet p.body "期限") = true := by
  simp only [validate_task_fields, tantouSatisfied, kigenSatisfied]
  split
  · rename_i h
    simp [h]
  · rename_i h
    split
    · rename_i h2
      simp [h, h2]
    · rename_i h2
      simp [h, h2]

/-- With an empty body dict, validation always asks for the assignee. -/
theorem validate_empty_body (t i s : String) :
    validate_task_fields ⟨t, i, s, []⟩ =
      Validation.needsUser "誰のタスクを追加しますか？（例：山田、佐藤）" := rfl

/-- Anatomy of a dispatching run: if a payload reached `requests.post`, it is
exactly the payload `nl_to_gas_payload` produced, and validation passed on it. -/
theorem sent_some_inv {cfg : Config} {req : Request} {llm : Option LlmData}
    {sink : SinkBehavior} {p : GasPayload}
    (h : (ingest cfg req llm sink).sent = some p) :
    nl_to_gas_payload cfg.openaiSet cfg.today llm = Except.ok p ∧
      validate_task_fields p = Validation.ok := by
  unfold ingest at h
  split at h
  · simp at h
  · split at h
    · simp at h
    · split at h
      · simp at h
      · rename_i gp hnl
        split at h
        · simp at h
        · rename_i hv
          split at h
          · simp at h
          · split at h
            · simp only [Option.some.injEq] at h
              subst h
              exact ⟨hnl, hv⟩
            · simp only [Option.some.injEq] at h
              subst h
              exact ⟨hnl, hv⟩

/-- C3: every Command actually handed to the sink has its audit-date field
`body["追加日"]` equal to the server's current date at dispatch time, for
every possible model output, including outputs that omit or falsify that
field. -/
theorem C3_audit_date_server_stamped (cfg : Config) (req : Request) (llm : Option LlmData)
    (sink : SinkBehavior) (p : GasPayload)
    (h : (ingest cfg req llm sink).sent = some p) :
    dictGet p.body "追加日" = cfg.today := by
  obtain ⟨hnl, hv⟩ := sent_some_inv h
  cases hop : cfg.openaiSet with
  | false =>
    rw [hop] at hnl
    simp [nl_to_gas_payload] at hnl
  | true =>
    rw [hop] at hnl
    cases llm with
    | none => simp [nl_to_gas_payload] at hnl
    | some data =>
      cases hb : data.body with
      | none =>
        simp [nl_to_gas_payload, hb] at hnl
        rw [← hnl] at hv
        rw [validate_empty_body] at hv
        simp at hv
      | some b =>
        simp [nl_to_gas_payload, hb] at hnl
        rw [← hnl]
        exact dictGet_dictSet b "追加日" cfg.today

/-- Witness for C3: the concrete complete request dispatches a payload whose
audit date equals the configured server date. -/
theorem C3_audit_date_witness :
    dictGet sentPayload.body "追加日" = cfgAll.today :=
  C3_audit_date_server_stamped cfgAll reqOk (some goodLlm) (.responded 200 "ok")
    sentPayload (by decide)

/-- C6: the sink is contacted only with a Command that passed
`validate_task_fields`; when validation fails on the extracted Command, no
payload is handed to the sink in that request. -/
theorem C6_dispatch_only_validated (cfg : Config) (req : Request) (llm : Option LlmData)
    (sink : SinkBehavior) :
    (∀ p, (ingest cfg req llm sink).sent = some p →
        validate_task_fields p = Validation.ok) ∧
      (∀ q, nl_to_gas_payload cfg.openaiSet cfg.today llm = Except.ok q →
        validate_task_fields q ≠ Validation.ok →
        (ingest cfg req llm sink).sent = none) := by
  constructor
  · intro p h
    exact (sent_some_inv h).2
  · intro q hq hnv
    unfold ingest
    split
    · rfl
    · split
      · rfl
      · rw [hq]
        cases hv : validate_task_fields q with
        | ok => exact absurd hv hnv
        | needsUser m => simp [hv]

/-- Witness for C6 at the concrete dispatching run. -/
theorem C6_dispatch_witness :
    validate_task_fields sentPayload = Validation.ok :=
  (C6_dispatch_only_validated cfgAll reqOk (some goodLlm) (.responded 200 "ok")).1
    sentPayload (by decide)

/-- C7 (evaluating the code): the token stamped onto every payload handed to
the sink is the hard-coded literal `"recora-secret-0324"`, for every
configuration — in particular it is not the configured `SHARED_TOKEN`
value, which the handler never reads. -/
theorem C7_token_is_hardcoded_constant (cfg : Config) (req : Request) (llm : Option LlmData)
    (sink : SinkBehavior) (p : GasPayload)
    (h : (ingest cfg req llm sink).sent = some p) :
    p.token = "recora-secret-0324" := by
  obtain ⟨hnl, _⟩ := sent_some_inv h
  cases hop : cfg.openaiSet with
  | false =>
    rw [hop] at hnl
    simp [nl_to_gas_payload] at hnl
  | true =>
    rw [hop] at hnl
    cases llm with
    | none => simp [nl_to_gas_payload] at hnl
    | some data =>
      simp [nl_to_gas_payload] at hnl
      rw [← hnl]

/-- Witness for C7: under a configuration whose shared token is
`"prod-shared-token"`, the dispatched payload still carries the hard-coded
token. -/
theorem C7_token_witness :
    sentPayload.token = "recora-secret-0324" ∧
      cfgAll.sharedToken = some "prod-shared-token" :=
  ⟨C7_token_is_hardcoded_constant cfgAll reqOk (some goodLlm) (.responded 200 "ok")
      sentPayload (by decide), rfl⟩

/-- C10: every exception from the extraction step — including the internal
502 raised on unparseable model output and the internal 500 raised when the
model credential is unset — reaches the HTTP caller as status 500 with
detail prefixed `"nl_to_gas_payload error:"`, and nothing else; no payload
reaches the sink. -/
theorem C10_extraction_errors_become_500 (cfg : Config) (req : Request)
    (llm : Option LlmData) (sink : SinkBehavior) (e : HttpError)
    (hauth : cfg.serverApiKey.getD "" = req.apiKey.getD "")
    (htext : pyStrip (req.userText.getD "") ≠ "")
    (he : nl_to_gas_payload cfg.openaiSet cfg.today llm = Except.error e) :
    ingest cfg req llm sink =
      ⟨.httpError 500 ("nl_to_gas_payload error: " ++ toString e.status ++ ": " ++ e.detail),
        none⟩ := by
  unfold ingest
  rw [if_neg (fun hc => hc hauth), if_neg htext, he]

/-- Witness for C10 at the concrete parse-failure run. -/
theorem C10_extraction_witness :
    ingest cfgAll reqOk none (.responded 200 "ok") =
      ⟨.httpError 500 ("nl_to_gas_payload error: " ++ toString (502 : Nat) ++ ": " ++
          "LLM output JSON parse error"), none⟩ :=
  C10_extraction_errors_become_500 cfgAll reqOk none (.responded 200 "ok")
    ⟨502, "LLM output JSON parse error"⟩ (by decide) (by decide) (by decide)

/-- C4 counterexample: with every configuration value set and a valid
request, an unparseable model output is answered with HTTP status 500 — the
internal 502 is swallowed by the blanket exception handler — so the caller
does not receive a 502-class failure. -/
theorem C4_counterexample :
    ingest cfgAll reqOk none (.responded 200 "ok") =
      ⟨.httpError 500 "nl_to_gas_payload error: 502: LLM output JSON parse error",
        none⟩ := by decide

/-- C4 amended: for every authorized request with non-empty text and the
model credential set, an unparseable model output yields HTTP 500 with
detail `"nl_to_gas_payload error: 502: LLM output JSON parse error"`, and
no payload reaches the sink (the handler keeps no per-caller state at all,
so there is no pending state to change). -/
theorem C4_amended_parse_error_is_500 (cfg : Config) (req : Request) (sink : SinkBehavior)
    (hauth : cfg.serverApiKey.getD "" = req.apiKey.getD "")
    (htext : pyStrip (req.userText.getD "") ≠ "")
    (hopen : cfg.openaiSet = true) :
    ingest cfg req none sink =
      ⟨.httpError 500 "nl_to_gas_payload error: 502: LLM output JSON parse error",
        none⟩ := by
  unfold ingest
  rw [if_neg (fun hc => hc hauth), if_neg htext,
    show nl_to_gas_payload cfg.openaiSet cfg.today none =
      Except.error ⟨502, "LLM output JSON parse error"⟩ by rw [hopen]; rfl]
  rfl

/-- Witness for the amended C4. -/
theorem C4_amended_witness :
    ingest cfgAll reqOk none (.unreachable "conn") =
      ⟨.httpError 500 "nl_to_gas_payload error: 502: LLM output JSON parse error",
        none⟩ :=
  C4_amended_parse_error_is_500 cfgAll reqOk (.unreachable "conn")
    (by decide) (by decide) rfl

/-- C5 counterexample: when the sink responds with status 500 (SinkRejected),
the caller receives the HTTP-200 echo `{ok := false, status := 500, text}`,
not a failure with status 502. -/
theorem C5_counterexample :
    ingest cfgAll reqOk (some goodLlm) (.responded 500 "Internal GAS error") =
      ⟨.dispatched false 500 "Internal GAS error", some sentPayload⟩ := by decide

/-- C5 amended: a network-level sink failure (`requests.RequestException`)
is reported as HTTP 502 with detail `"GAS request failed: ..."`, while a
sink HTTP response — success or not — is echoed back with HTTP 200 as
`{ok := status < 400, status, text truncated to 1000 characters}`; the two
modes remain distinguishable. -/
theorem C5_amended_sink_failures (cfg : Config) (req : Request) (llm : Option LlmData)
    (p : GasPayload) (u : String)
    (hauth : cfg.serverApiKey.getD "" = req.apiKey.getD "")
    (htext : pyStrip (req.userText.getD "") ≠ "")
    (hp : nl_to_gas_payload cfg.openaiSet cfg.today llm = Except.ok p)
    (hv : validate_task_fields p = Validation.ok)
    (hurl : cfg.gasUrl = some u) :
    (∀ m, ingest cfg req llm (.unreachable m) =
        ⟨.httpError 502 ("GAS request failed: " ++ m), some p⟩) ∧
      ∀ s t, ingest cfg req llm (.responded s t) =
        ⟨.dispatched (decide (s < 400)) s (strTake t 1000), some p⟩ := by
  constructor
  · intro m
    unfold ingest
    rw [if_neg (fun hc => hc hauth), if_neg htext]
    simp [hp, hv, hurl]
  · intro s t
    unfold ingest
    rw [if_neg (fun hc => hc hauth), if_neg htext]
    simp [hp, hv, hurl]

/-- Witness for the amended C5: sink rejection with status 404. -/
theorem C5_amended_witness :
    ingest cfgAll reqOk (some goodLlm) (.responded 404 "Not Found") =
      ⟨.dispatched (decide ((404 : Nat) < 400)) 404 (strTake "Not Found" 1000),
        some sentPayload⟩ :=
  (C5_amended_sink_failures cfgAll reqOk (some goodLlm) sentPayload
      "https://script.google.com/macros/s/x/exec"
      (by decide) (by decide) (by decide) (by decide) rfl).2 404 "Not Found"

/-! Concrete inputs for the clarification-flow scenario (C1) and the
configuration scenarios (C8, C9). -/

/-- First turn: model extracts the assignee but finds no due date. -/
def firstLlm : LlmData :=
  ⟨some "write", some "task-list",
    some [("固有ID", ""), ("追加日", "2025/10/12"), ("担当", "山田"), ("内容", "資料作成"),
      ("期限", "")]⟩

/-- First-turn request from caller `k1`. -/
def reqFirst : Request := ⟨some "山田さんに資料作成を頼んで", some "k1"⟩

/-- Follow-up turn: the same caller answers just `"12/05"`; re-extracting
that text alone yields no assignee. -/
def followLlm : LlmData :=
  ⟨some "write", some "task-list",
    some [("固有ID", ""), ("追加日", "2025/10/12"), ("担当", ""), ("内容", "12/05"),
      ("期限", "12/05")]⟩

/-- Follow-up request from the same caller `k1`. -/
def reqFollow : Request := ⟨some "12/05", some "k1"⟩

/-- The payload the follow-up turn freshly extracts. -/
def followPayload : GasPayload :=
  ⟨"recora-secret-0324", "write", "task-list",
    [("固有ID", ""), ("追加日", "2025/10/12"), ("担当", ""), ("内容", "12/05"),
      ("期限", "12/05")]⟩

/-- C1 counterexample: a first call missing only the due date gets the
due-date prompt; the same caller's follow-up `"12/05"` — non-empty and free
of every interrogative marker — is answered with the assignee prompt again
and nothing is dispatched: nothing was stored, nothing merged, no Ready. -/
theorem C1_counterexample :
    ingest cfgAll reqFirst (some firstLlm) (.responded 200 "ok") =
        ⟨.needsUser "期限はいつにしますか？（例：12/05など）", none⟩ ∧
      ingest cfgAll reqFollow (some followLlm) (.responded 200 "ok") =
        ⟨.needsUser "誰のタスクを追加しますか？（例：山田、佐藤）", none⟩ ∧
      pyStrip "12/05" ≠ "" ∧
      strContains "12/05" "？" = false ∧
      strContains "12/05" "?" = false ∧
      strContains "12/05" "誰" = false ∧
      strContains "12/05" "担当ですか" = false ∧
      strContains "12/05" "期限" = false := by decide

/-- C1 amended: the handler stores nothing between requests; every request,
follow-up or not, is freshly re-extracted, and a payload goes out exactly
when that fresh extraction passes `validate_task_fields`. -/
theorem C1_amended_stateless_reextraction (cfg : Config) (req : Request) (d : LlmData)
    (sink : SinkBehavior) (p : GasPayload) (u : String)
    (hauth : cfg.serverApiKey.getD "" = req.apiKey.getD "")
    (htext : pyStrip (req.userText.getD "") ≠ "")
    (hp : nl_to_gas_payload cfg.openaiSet cfg.today (some d) = Except.ok p)
    (hurl : cfg.gasUrl = some u) :
    (ingest cfg req (some d) sink).sent =
      if validate_task_fields p = Validation.ok then some p else none := by
  unfold ingest
  rw [if_neg (fun hc => hc hauth), if_neg htext]
  cases hv : validate_task_fields p with
  | ok =>
    simp [hp, hv, hurl]
    cases sink <;> simp
  | needsUser m =>
    simp [hp, hv]

/-- Witness for the amended C1: the follow-up turn's outbound traffic is
exactly what fresh validation of its own extraction dictates — nothing. -/
theorem C1_amended_witness :
    (ingest cfgAll reqFollow (some followLlm) (.responded 200 "ok")).sent =
      if validate_task_fields followPayload = Validation.ok then some followPayload
      else none :=
  C1_amended_stateless_reextraction cfgAll reqFollow followLlm (.responded 200 "ok")
    followPayload "https://script.google.com/macros/s/x/exec"
    (by decide) (by decide) (by decide) rfl

/-- C2 counterexample: the string `"誰"` fails the assignee rule but passes
the due-date rule, so the two required fields are not governed by one and
the same marker set: a payload with `期限 = "誰"` validates, while one with
`担当 = "誰"` does not. -/
theorem C2_counterexample :
    tantouSatisfied "誰" = false ∧
      kigenSatisfied "誰" = true ∧
      validate_task_fields ⟨"recora-secret-0324", "write", "task-list",
          [("担当", "誰"), ("期限", "12/05")]⟩ =
        .needsUser "誰のタスクを追加しますか？（例：山田、佐藤）" ∧
      validate_task_fields ⟨"recora-secret-0324", "write", "task-list",
          [("担当", "山田"), ("期限", "誰")]⟩ = Validation.ok := by decide

/-- C2 amended: a required field is satisfied iff its value is non-empty
after stripping and contains none of that field's own markers —
`["誰", "担当ですか", "？", "?"]` for the assignee, `["期限", "？", "?"]`
for the due date — and `validate_task_fields`, the single check the handler
ever runs (there is no merge step), succeeds exactly when both per-field
rules hold. -/
theorem C2_amended_per_field_rules (p : GasPayload) :
    validate_task_fields p = Validation.ok ↔
      tantouSatisfied (dictGet p.body "担当") = true ∧
      kigenSatisfied (dictGet p.body "期限") = true :=
  validate_ok_iff p

/-- C8 counterexample: with `SERVER_API_KEY` unset, a request presenting no
`x-api-key` header at all is accepted and fully processed (here all the way
to a clarification prompt) instead of being rejected with an error. -/
theorem C8_counterexample :
    ingest ⟨true, some "https://script.google.com/macros/s/x/exec", none, none, "2025/10/12"⟩
        ⟨some "資料作成をお願い", none⟩
        (some ⟨some "write", some "task-list",
          some [("固有ID", ""), ("追加日", ""), ("担当", ""), ("内容", "資料作成"),
            ("期限", "")]⟩)
        (.responded 200 "ok") =
      ⟨.needsUser "誰のタスクを追加しますか？（例：山田、佐藤）", none⟩ := by decide

/-- C8 amended: an unset model credential and an unset sink URL each fail
fast with a 500 at their point of use, but an unset inbound API key does
not cause rejection — a request carrying no key then passes the guard (the
empty-against-empty comparison succeeds) and proceeds to the next check —
and the shared token setting is never consulted at all. -/
theorem C8_amended_config_failures :
    (∀ cfg req llm sink, cfg.openaiSet = false →
        cfg.serverApiKey.getD "" = req.apiKey.getD "" →
        pyStrip (req.userText.getD "") ≠ "" →
        (ingest cfg req llm sink).result =
          .httpError 500 "nl_to_gas_payload error: 500: OPENAI_API_KEY is not set") ∧
      (∀ cfg req llm sink p, cfg.gasUrl = none →
        cfg.serverApiKey.getD "" = req.apiKey.getD "" →
        pyStrip (req.userText.getD "") ≠ "" →
        nl_to_gas_payload cfg.openaiSet cfg.today llm = Except.ok p →
        validate_task_fields p = Validation.ok →
        (ingest cfg req llm sink).result = .httpError 500 "GAS_WEBAPP_URL is not set") ∧
      ∀ cfg llm sink, cfg.serverApiKey = none →
        (ingest cfg ⟨none, none⟩ llm sink).result = .httpError 400 "user_text required" := by
  refine ⟨?_, ?_, ?_⟩
  · intro cfg req llm sink hopen hauth htext
    unfold ingest
    rw [if_neg (fun hc => hc hauth), if_neg htext,
      show nl_to_gas_payload cfg.openaiSet cfg.today llm =
        Except.error ⟨500, "OPENAI_API_KEY is not set"⟩ by
          rw [show cfg.openaiSet = false from hopen]; rfl]
    rfl
  · intro cfg req llm sink p hurl hauth htext hp hv
    unfold ingest
    rw [if_neg (fun hc => hc hauth), if_neg htext]
    simp [hp, hv, hurl]
  · intro cfg llm sink hkey
    unfold ingest
    rw [if_neg (by simp [hkey]), if_pos (by rfl)]

/-- Witness for the amended C8: unset model credential under an otherwise
complete configuration yields the wrapped 500. -/
theorem C8_amended_witness :
    (ingest ⟨false, some "https://script.google.com/macros/s/x/exec", some "prod-shared-token",
        some "k1", "2025/10/12"⟩ reqOk (some goodLlm) (.responded 200 "ok")).result =
      .httpError 500 "nl_to_gas_payload error: 500: OPENAI_API_KEY is not set" :=
  C8_amended_config_failures.1
    ⟨false, some "https://script.google.com/macros/s/x/exec", some "prod-shared-token",
      some "k1", "2025/10/12"⟩
    reqOk (some goodLlm) (.responded 200 "ok") rfl (by decide) (by decide)

/-- C9 counterexample: a model output whose `body` key is absent is not
surfaced as a failure: the body silently defaults to the empty dict and the
caller receives the assignee clarification prompt. -/
theorem C9_counterexample :
    nl_to_gas_payload true "2025/10/12" (some ⟨some "write", some "task-list", none⟩) =
        Except.ok ⟨"recora-secret-0324", "write", "task-list", []⟩ ∧
      ingest cfgAll reqOk (some ⟨some "write", some "task-list", none⟩)
          (.responded 200 "ok") =
        ⟨.needsUser "誰のタスクを追加しますか？（例：山田、佐藤）", none⟩ := by decide

/-- C9 amended: a missing `body` key is silently defaulted to the empty
dict — `intent` and `sheet` likewise fall back to `"write"` and
`"task-list"` — and the resulting empty required fields surface as a
needs-user clarification outcome, not as an extraction failure. -/
theorem C9_amended_missing_body_defaults (today : String) (i s : Option String) :
    nl_to_gas_payload true today (some ⟨i, s, none⟩) =
        Except.ok ⟨"recora-secret-0324", i.getD "write", s.getD "task-list", []⟩ ∧
      validate_task_fields ⟨"recora-secret-0324", i.getD "write", s.getD "task-list", []⟩ =
        .needsUser "誰のタスクを追加しますか？（例：山田、佐藤）" :=
  ⟨rfl, rfl⟩

end NlToGas
